import Mathlib

/-!
Shallow embedding of the `chill_torch` repository
(`src/chill_model/chill_model.py` and
`src/chill_model/chill_lightning/basic_models.py`).

Tensors are modelled as rank-0/1/2 containers of rationals; the external
numeric collaborators (the user-supplied network's `forward`, `torch.sigmoid`,
the torch loss modules' numeric value) are abstracted into a context `Ctx`,
while every piece of logic written in this repository (task-tag dispatch,
loss-function selection, accumulator updates, logging names, optimizer
defaults, orchestrator delegation) is translated directly from the source.
-/

set_option autoImplicit false

namespace ChillTorch

/-- A torch tensor of rank 0, 1 or 2 with rational entries
(an exact model of the real-valued payloads the wrappers move around). -/
inductive Tensor where
  | scalar (x : ℚ)
  | vec (xs : List ℚ)
  | mat (xss : List (List ℚ))
deriving DecidableEq, Repr

/-- `torch.Tensor.squeeze()`: remove all singleton dimensions
(among the ranks represented here). -/
def Tensor.squeeze : Tensor → Tensor
  | .scalar x => .scalar x
  | .vec [x] => .scalar x
  | .vec xs => .vec xs
  | .mat [[x]] => .scalar x
  | .mat [row] => .vec row
  | .mat xss =>
      if xss.all (fun r => r.length = 1) then .vec (xss.filterMap List.head?)
      else .mat xss

/-- All entries of a tensor, in order. -/
def Tensor.toList : Tensor → List ℚ
  | .scalar x => [x]
  | .vec xs => xs
  | .mat xss => xss.flatten

/-- `torch.round` rounds half to even: on a tie ( fractional part exactly
1/2) it picks the even neighbour, otherwise the nearest integer. -/
def roundHalfEven (q : ℚ) : ℤ :=
  if Int.fract q = 1/2 then (if ⌊q⌋ % 2 = 0 then ⌊q⌋ else ⌊q⌋ + 1)
  else round q

/-- Binary decode rule of the source steps:
`torch.round(torch.sigmoid(y_logits))`, elementwise.  `sig` is the external
`torch.sigmoid` (its numerics live outside this repository). -/
def decodeBinary (sig : ℚ → ℚ) : Tensor → Tensor
  | .scalar x => .scalar ((roundHalfEven (sig x) : ℤ) : ℚ)
  | .vec xs => .vec (xs.map (fun x => ((roundHalfEven (sig x) : ℤ) : ℚ)))
  | .mat xss => .mat (xss.map (fun r => r.map (fun x => ((roundHalfEven (sig x) : ℤ) : ℚ))))

/-- Index of the first maximal entry of a row (torch.argmax returns the
first occurrence of the maximum). -/
def argmaxGo : List ℚ → ℚ → Nat → Nat → Nat
  | [], _, best, _ => best
  | y :: ys, cur, best, i =>
      if cur < y then argmaxGo ys y i (i + 1) else argmaxGo ys cur best (i + 1)

/-- `torch.argmax(row)` for a single row; empty rows are a torch error. -/
def argmaxIdx : List ℚ → Except String ℚ
  | [] => Except.error ("RuntimeError: argmax of an empty tensor")
  | x :: rest => Except.ok ((argmaxGo rest x 0 1 : ℕ) : ℚ)

/-- Multiclass decode rule of the source steps:
`torch.argmax(y_logits, dim = 1)`.  Tensors of rank below 2 make `dim = 1`
out of range, which is a torch error. -/
def decodeMulticlass : Tensor → Except String Tensor
  | .mat xss =>
      (xss.mapM argmaxIdx).map Tensor.vec
  | _ => Except.error ("IndexError: dimension 1 out of range")

/-- Identity of a loss function object.  The source stores *references* to
loss classes (`nn.BCEWithLogitsLoss`, `nn.CrossEntropyLoss`, `nn.MSELoss`)
or a caller-supplied callable; we model that reference identity, not the
numeric behaviour. -/
inductive LossFn where
  | bceWithLogits
  | crossEntropy
  | mse
  | custom (ref : Nat)
deriving DecidableEq, Repr

/-- A `torchmetrics.Accuracy` accumulator.  The numeric accuracy semantics
belongs to the external metrics capability; we record the task it was built
for and the exact sequence of `(preds, target)` updates it received. -/
structure Accuracy where
  task : String
  history : List (Tensor × Tensor)
deriving DecidableEq, Repr

/-- Number of incremental updates the accumulator has received. -/
def Accuracy.updates (a : Accuracy) : Nat := a.history.length

/-- One incremental update `self.<split>_accuracy(preds, target)`. -/
def Accuracy.update (a : Accuracy) (preds target : Tensor) : Accuracy :=
  { a with history := a.history ++ [(preds, target)] }

/-- Model of the external `torchmetrics.Accuracy` dispatcher (torchmetrics
`>= 0.11`, the task-based API required by the `lightning.pytorch` import the
source uses): the `task` string must name one of the classification tasks
`binary`, `multiclass` or `multilabel`; `multiclass` requires `num_classes`
and `multilabel` requires `num_labels`; anything else raises at
construction. -/
def Accuracy.make (task : String) (num_classes num_labels : Option Nat) :
    Except String Accuracy :=
  if task = "binary" then Except.ok { task := task, history := [] }
  else if task = "multiclass" then
    match num_classes with
    | some _ => Except.ok { task := task, history := [] }
    | none => Except.error ("ValueError: num_classes is expected to be int")
  else if task = "multilabel" then
    match num_labels with
    | some _ => Except.ok { task := task, history := [] }
    | none => Except.error ("ValueError: num_labels is expected to be int")
  else Except.error ("ValueError: invalid classification task " ++ task)

/-- One emission to the logging capability: `self.log(name, value)` receives
either a metric accumulator object or a scalar loss value. -/
inductive LogEvent where
  | metric (name : String) (value : Accuracy)
  | scalar (name : String) (value : ℚ)
deriving DecidableEq, Repr

/-- Reference to an optimizer constructor.  `torch.optim.Adam` and
`torch.optim.SGD` are the library constructors; `custom ref` is a
caller-supplied constructor identified by reference. -/
inductive OptimCtor where
  | adam
  | sgd
  | custom (ref : Nat)
deriving DecidableEq, Repr

/-- An instantiated optimizer: a constructor applied to `self.parameters()`
with a learning rate (the parameter list itself is external state of the
wrapped network). -/
structure OptimInstance where
  ctor : OptimCtor
  lr : ℚ
deriving DecidableEq, Repr

/-- `torch.optim.lr_scheduler.StepLR(optim, step_size = 1)`. -/
structure LRScheduler where
  step_size : Nat
deriving DecidableEq, Repr

/-- Attribute lookup `torch.nn.Adam`.  The `torch.nn` module defines no
`Adam` (optimizers live in `torch.optim`), so the lookup yields nothing and
evaluating it raises `AttributeError`. -/
def torch_nn_Adam : Option OptimCtor := none

/-- Attribute lookup `torch.optim.SGD`, which exists. -/
def torch_optim_SGD : OptimCtor := OptimCtor.sgd

/-- External numeric collaborators of a wrapper: the wrapped network's
`forward` (composition of the user's layers, or the overridden forward —
both external code), `torch.sigmoid`, and the numeric value computed by an
instantiated loss module on `(input, target)`. -/
structure Ctx where
  forward : Tensor → Tensor
  sigmoid : ℚ → ℚ
  lossVal : LossFn → Tensor → Tensor → ℚ

/-- A batch `(x, y)` as unpacked by every step. -/
structure Batch where
  x : Tensor
  y : Tensor
deriving DecidableEq, Repr

/-- What a step operation produces besides raising: the wrapper state after
the step, the emissions to the logging capability in order, the `"loss"`
entry of a returned dict (training steps), and returned predictions
(predict steps). -/
structure StepOut (M : Type) where
  model : M
  events : List LogEvent
  loss : Option ℚ
  preds : Option Tensor
deriving DecidableEq, Repr

/-- State of a `RegularClassificationModel` (basic_models.py, lines 7-49).
The wrapped network itself (`self.torch_forward`, `self.layers`) is external
user code, abstracted into `Ctx.forward`; every field of repository-owned
state is here.  `loss_fn = none` models the attribute being left unset by
the `if/elif` chain of `__init__` (reading it then raises
`AttributeError`). -/
structure RegularClassificationModel where
  task : String
  train_accuracy : Accuracy
  valid_accuracy : Accuracy
  test_accuracy : Accuracy
  optim : Option OptimCtor
  forward_override : Bool
  lr : ℚ
  loss_fn : Option LossFn
deriving DecidableEq, Repr

/-- `RegularClassificationModel.__init__`.  The three
`torchmetrics.Accuracy(task = self.task, num_classes = number_of_classes)`
calls run first (each can raise, the first raise propagates); then the loss
chain: a caller-supplied `loss_fn` wins, else `binary` selects
`nn.BCEWithLogitsLoss`, `multiclass` selects `nn.CrossEntropyLoss`, and any
other task leaves `self.loss_fn` unset.  The `classifier` parameter is
accepted and never used by this constructor. -/
def RegularClassificationModel.init
    (number_of_classes : Nat) (task : String)
    (optim : Option OptimCtor) (loss_fn : Option LossFn)
    (classifier : Option Nat) (forward_override : Bool) (lr : ℚ) :
    Except String RegularClassificationModel := do
  let _ := classifier
  let tr ← Accuracy.make task (some number_of_classes) none
  let va ← Accuracy.make task (some number_of_classes) none
  let te ← Accuracy.make task (some number_of_classes) none
  Except.ok
    { task := task
      train_accuracy := tr
      valid_accuracy := va
      test_accuracy := te
      optim := optim
      forward_override := forward_override
      lr := lr
      loss_fn :=
        if loss_fn.isSome then loss_fn
        else if task = "binary" then some LossFn.bceWithLogits
        else if task = "multiclass" then some LossFn.crossEntropy
        else none }

/-- The task-conditional decode shared by the four steps' `if/elif` on
`self.task`: `binary` rounds the sigmoid, `multiclass` takes the row argmax;
any other task leaves `y_preds` unbound, so the first later use raises
`UnboundLocalError`. -/
def RegularClassificationModel.decode (ctx : Ctx) (task : String)
    (y_logits : Tensor) : Except String Tensor :=
  if task = "binary" then Except.ok (decodeBinary ctx.sigmoid y_logits)
  else if task = "multiclass" then decodeMulticlass y_logits
  else Except.error ("UnboundLocalError: local variable y_preds referenced before assignment")

/-- Reading `self.loss_fn` and instantiating it (`loss_fn = self.loss_fn()`):
raises `AttributeError` when `__init__` never set the attribute. -/
def RegularClassificationModel.getLossFn (m : RegularClassificationModel) :
    Except String LossFn :=
  match m.loss_fn with
  | some lf => Except.ok lf
  | none => Except.error ("AttributeError: object has no attribute loss_fn")

/-- `RegularClassificationModel.training_step`: forward, squeeze, decode by
task, compute the loss on the logits, update the train accumulator once, log
it as `train_acc_step`, and return the loss in the result dict (the loss is
not logged here). -/
def RegularClassificationModel.training_step (ctx : Ctx)
    (m : RegularClassificationModel) (batch : Batch) :
    Except String (StepOut RegularClassificationModel) := do
  let y_logits := (ctx.forward batch.x).squeeze
  let y_preds ← RegularClassificationModel.decode ctx m.task y_logits
  let lf ← m.getLossFn
  let loss := ctx.lossVal lf y_logits batch.y
  let tr := m.train_accuracy.update y_preds batch.y
  Except.ok
    { model := { m with train_accuracy := tr }
      events := [LogEvent.metric ("train_acc_step") tr]
      loss := some loss
      preds := none }

/-- `RegularClassificationModel.validation_step`: like training but updates
the validation accumulator, logs it as `val_acc_step` and logs the loss as
`val_loss`; returns nothing. -/
def RegularClassificationModel.validation_step (ctx : Ctx)
    (m : RegularClassificationModel) (batch : Batch) :
    Except String (StepOut RegularClassificationModel) := do
  let y_logits := (ctx.forward batch.x).squeeze
  let y_preds ← RegularClassificationModel.decode ctx m.task y_logits
  let lf ← m.getLossFn
  let val_loss := ctx.lossVal lf y_logits batch.y
  let va := m.valid_accuracy.update y_preds batch.y
  Except.ok
    { model := { m with valid_accuracy := va }
      events := [LogEvent.metric ("val_acc_step") va, LogEvent.scalar ("val_loss") val_loss]
      loss := none
      preds := none }

/-- `RegularClassificationModel.test_step`: updates the test accumulator,
logs it as `test_acc_step`, and logs the test loss under the name
`val_loss` (sic — the source reuses the validation name here); returns
nothing. -/
def RegularClassificationModel.test_step (ctx : Ctx)
    (m : RegularClassificationModel) (batch : Batch) :
    Except String (StepOut RegularClassificationModel) := do
  let y_logits := (ctx.forward batch.x).squeeze
  let y_preds ← RegularClassificationModel.decode ctx m.task y_logits
  let lf ← m.getLossFn
  let test_loss := ctx.lossVal lf y_logits batch.y
  let te := m.test_accuracy.update y_preds batch.y
  Except.ok
    { model := { m with test_accuracy := te }
      events := [LogEvent.metric ("test_acc_step") te, LogEvent.scalar ("val_loss") test_loss]
      loss := none
      preds := none }

/-- `RegularClassificationModel.predict_step`: forward, squeeze, decode by
task, and return the decoded labels; no loss is computed, no accumulator is
touched, nothing is logged. -/
def RegularClassificationModel.predict_step (ctx : Ctx)
    (m : RegularClassificationModel) (batch : Batch) :
    Except String (StepOut RegularClassificationModel) := do
  let y_logits := (ctx.forward batch.x).squeeze
  let y_preds ← RegularClassificationModel.decode ctx m.task y_logits
  Except.ok { model := m, events := [], loss := none, preds := some y_preds }

/-- `RegularClassificationModel.configure_optimizers`: with no caller
optimizer it evaluates `torch.nn.Adam(params = self.parameters(),
lr = self.lr)` — but `torch.nn` has no `Adam`, so the attribute lookup
raises; with a caller constructor it instantiates that constructor; on
success it pairs the optimizer with a `StepLR(step_size = 1)` schedule. -/
def RegularClassificationModel.configure_optimizers
    (m : RegularClassificationModel) :
    Except String (List OptimInstance × List LRScheduler) := do
  let o ←
    match m.optim with
    | none =>
        match torch_nn_Adam with
        | some c => Except.ok { ctor := c, lr := m.lr : OptimInstance }
        | none => Except.error ("AttributeError: module torch.nn has no attribute Adam")
    | some c => Except.ok { ctor := c, lr := m.lr : OptimInstance }
  Except.ok ([o], [{ step_size := 1 }])

/-- State of a `LinearRegressionModel` (basic_models.py, lines 136-212).
Its `__init__` always sets a loss function (caller-supplied or `nn.MSELoss`),
so the field is not optional. -/
structure LinearRegressionModel where
  lr : ℚ
  optim : Option OptimCtor
  forward_override : Bool
  loss_fn : LossFn
deriving DecidableEq, Repr

/-- `LinearRegressionModel.__init__`. -/
def LinearRegressionModel.init (forward_override : Bool)
    (optim : Option OptimCtor) (loss_fn : Option LossFn) (lr : ℚ) :
    LinearRegressionModel :=
  { lr := lr
    optim := optim
    forward_override := forward_override
    loss_fn :=
      match loss_fn with
      | some lf => lf
      | none => LossFn.mse }

/-- `LinearRegressionModel.training_step`: forward, squeeze, loss on the
(squeezed) predictions; the loss is returned in the dict, nothing is
logged, there is no accumulator. -/
def LinearRegressionModel.training_step (ctx : Ctx)
    (m : LinearRegressionModel) (batch : Batch) : StepOut LinearRegressionModel :=
  let y_preds := (ctx.forward batch.x).squeeze
  let train_loss := ctx.lossVal m.loss_fn y_preds batch.y
  { model := m, events := [], loss := some train_loss, preds := none }

/-- `LinearRegressionModel.validation_step`: logs the loss as `val_loss`. -/
def LinearRegressionModel.validation_step (ctx : Ctx)
    (m : LinearRegressionModel) (batch : Batch) : StepOut LinearRegressionModel :=
  let y_preds := (ctx.forward batch.x).squeeze
  let val_loss := ctx.lossVal m.loss_fn y_preds batch.y
  { model := m, events := [LogEvent.scalar ("val_loss") val_loss], loss := none, preds := none }

/-- `LinearRegressionModel.test_step`: logs the loss as `test_loss`. -/
def LinearRegressionModel.test_step (ctx : Ctx)
    (m : LinearRegressionModel) (batch : Batch) : StepOut LinearRegressionModel :=
  let y_preds := (ctx.forward batch.x).squeeze
  let test_loss := ctx.lossVal m.loss_fn y_preds batch.y
  { model := m, events := [LogEvent.scalar ("test_loss") test_loss], loss := none, preds := none }

/-- `LinearRegressionModel.predict_step`: returns the raw forward output
(no squeeze here, unlike the other regression steps), computing no loss. -/
def LinearRegressionModel.predict_step (ctx : Ctx)
    (m : LinearRegressionModel) (batch : Batch) : StepOut LinearRegressionModel :=
  { model := m, events := [], loss := none, preds := some (ctx.forward batch.x) }

/-- `LinearRegressionModel.configure_optimizers`: `torch.optim.SGD` by
default (this lookup exists), else the caller's constructor; paired with
`StepLR(step_size = 1)`.  No failure path. -/
def LinearRegressionModel.configure_optimizers (m : LinearRegressionModel) :
    List OptimInstance × List LRScheduler :=
  match m.optim with
  | none => ([{ ctor := torch_optim_SGD, lr := m.lr }], [{ step_size := 1 }])
  | some c => ([{ ctor := c, lr := m.lr }], [{ step_size := 1 }])

/-- Modelled from the spec: `helper_functions.select_mode` is code of this
repository that is not under `src/` (only its caller is).  Per the spec
(§4.3) and the orchestrator docstring it resolves a problem-type string from
`[lin-reg, img-class, reg-class]` to a canonical task tag and fails with a
descriptive error on anything else. -/
def select_mode (problem_type : String) : Except String String :=
  if problem_type = "lin-reg" ∨ problem_type = "img-class" ∨ problem_type = "reg-class" then
    Except.ok problem_type
  else Except.error ("ValueError: unrecognized problem type " ++ problem_type)

/-- The wrapper instance an orchestrator selects.  The image-classification
wrapper is not under `src/`; the two basic wrappers are the ones modelled
above (their construction arguments chosen by `select_model` are not in
`src/` either, so the variant records only which wrapper was built). -/
inductive Wrapper where
  | regClass
  | linReg
  | imgClass
deriving DecidableEq, Repr

/-- Modelled from the spec: `helper_functions.select_model` is code of this
repository that is not under `src/`.  Per the spec it instantiates the
wrapper matching the resolved problem type, and per §7 a missing required
`classifier` argument on the pretrained ("custom model") path is a
descriptive error raised here, at construction time. -/
def select_model (problem_type : String) (forward_override : Bool)
    (optim : Option OptimCtor) (lr : ℚ) (pretrained : Bool)
    (classifier : Option Nat) : Except String Wrapper :=
  let _ := (forward_override, optim, lr)
  if pretrained ∧ classifier.isNone then
    Except.error ("ValueError: classifier is a required argument when pretrained is True")
  else if problem_type = "lin-reg" then Except.ok Wrapper.linReg
  else if problem_type = "img-class" then Except.ok Wrapper.imgClass
  else Except.ok Wrapper.regClass

/-- Allocation state for `pl.Trainer()` handles: each construction yields a
fresh handle identifier. -/
structure World where
  nextTrainer : Nat
deriving DecidableEq, Repr

/-- `pl.Trainer()`: construct a fresh trainer handle. -/
def plTrainer (w : World) : Nat × World :=
  (w.nextTrainer, { nextTrainer := w.nextTrainer + 1 })

/-- One delegation to the external trainer capability, recording which
trainer handle was used and exactly which arguments the source passes. -/
inductive TrainerCall where
  | fit (trainer : Nat) (model : Wrapper) (train_dataloaders : Nat)
  | test (trainer : Nat) (dataloaders : Nat)
  | validate (trainer : Nat) (model : Wrapper)
  | predict (trainer : Nat) (dataloaders : Nat)
deriving DecidableEq, Repr

/-- Whether a trainer delegation receives the wrapper as an argument. -/
def TrainerCall.usesModel : TrainerCall → Bool
  | .fit _ _ _ => true
  | .validate _ _ => true
  | .test _ _ => false
  | .predict _ _ => false

/-- State of a `ChillModel` orchestrator (chill_model.py, lines 8-48): data
loaders (external iterables, held by reference id), the resolved problem
type, the selected wrapper, and the trainer handle constructed at the end of
`__init__`. -/
structure ChillModel where
  train_dataloader : Nat
  test_dataloader : Nat
  problem_type : String
  model : Wrapper
  trainer : Nat
deriving DecidableEq, Repr

/-- `ChillModel.__init__`: store the loaders, resolve the problem type via
`select_mode` (its error aborts construction before any wrapper exists),
select the wrapper via `select_model` (no `classifier` argument exists in
this signature, so `select_model` receives none), then construct the held
`pl.Trainer()`. -/
def ChillModel.init (train_dataloader test_dataloader : Nat)
    (problem_type : String) (forward_override : Bool)
    (optim : Option OptimCtor) (pretrained : Bool) (lr : ℚ) (w : World) :
    Except String (ChillModel × World) := do
  let pt ← select_mode problem_type
  let m ← select_model pt forward_override optim lr pretrained none
  let (t, w2) := plTrainer w
  Except.ok
    ({ train_dataloader := train_dataloader
       test_dataloader := test_dataloader
       problem_type := pt
       model := m
       trainer := t }, w2)

/-- `ChillModel.train`: `self.trainer.fit(model = self.model,
train_dataloaders = self.train_dataloader)`. -/
def ChillModel.train (m : ChillModel) : List TrainerCall :=
  [TrainerCall.fit m.trainer m.model m.train_dataloader]

/-- `ChillModel.test`: `self.trainer.test(dataloaders =
self.test_dataloader)` — the wrapper is not passed. -/
def ChillModel.test (m : ChillModel) : List TrainerCall :=
  [TrainerCall.test m.trainer m.test_dataloader]

/-- `ChillModel.validate`: constructs a fresh `pl.Trainer()` and calls
`trainer.validate(self.model)` on it; the orchestrator state (including the
stored trainer handle) is not modified. -/
def ChillModel.validate (m : ChillModel) (w : World) :
    ChillModel × World × List TrainerCall :=
  let (t, w2) := plTrainer w
  (m, w2, [TrainerCall.validate t m.model])

/-- `ChillModel.predict`: `self.trainer.predict(dataloaders =
predict_dataloader)` — the wrapper is not passed; the predictions returned
come from the external trainer. -/
def ChillModel.predict (m : ChillModel) (predict_dataloader : Nat) :
    List TrainerCall :=
  [TrainerCall.predict m.trainer predict_dataloader]

end ChillTorch

deriving instance DecidableEq for Except

namespace ChillTorch

/-! Concrete fixtures used by witnesses and counterexamples: an external
context with the identity network, the constant function `1/2` for sigmoid
(a value inside the open unit interval) and a constant loss value. -/

def ctx0 : Ctx :=
  { forward := fun t => t, sigmoid := fun _ => 1/2, lossVal := fun _ _ _ => 2 }

def acc0 : Accuracy := { task := "binary", history := [] }

/-- The binary classification wrapper built with no custom optimizer and no
custom loss function. -/
def bm0 : RegularClassificationModel :=
  { task := "binary"
    train_accuracy := acc0
    valid_accuracy := acc0
    test_accuracy := acc0
    optim := none
    forward_override := false
    lr := 1/1000
    loss_fn := some LossFn.bceWithLogits }

theorem bm0_init :
    RegularClassificationModel.init 2 ("binary") none none none false (1/1000) =
      Except.ok bm0 := by rfl

def b0 : Batch := { x := Tensor.vec [1, -1], y := Tensor.vec [1, 0] }

/-- The regression wrapper built with no custom optimizer and no custom
loss function. -/
def rm0 : LinearRegressionModel := LinearRegressionModel.init false none none (1/1000)

/-- The accumulator `acc0` after the single update performed by a step on
`ctx0`/`bm0`/`b0` (both logits decode to label `0`). -/
def acc1 : Accuracy :=
  { task := "binary", history := [(Tensor.vec [0, 0], Tensor.vec [1, 0])] }

/-- Reducing a bind whose first component succeeded. -/
theorem ok_bind {α β : Type} (a : α) (f : α → Except String β) :
    (Except.ok a : Except String α) >>= f = f a := rfl

/-- Reducing a bind whose first component raised. -/
theorem error_bind {α β : Type} (e : String) (f : α → Except String β) :
    (Except.error e : Except String α) >>= f = Except.error e := rfl

/-- `training_step` by cases on the decode result and the stored loss. -/
theorem training_step_eq (ctx : Ctx) (m : RegularClassificationModel) (b : Batch) :
    RegularClassificationModel.training_step ctx m b =
      match RegularClassificationModel.decode ctx m.task ((ctx.forward b.x).squeeze),
            m.getLossFn with
      | Except.ok p, Except.ok lf =>
          Except.ok
            { model := { m with train_accuracy := m.train_accuracy.update p b.y }
              events := [LogEvent.metric ("train_acc_step") (m.train_accuracy.update p b.y)]
              loss := some (ctx.lossVal lf ((ctx.forward b.x).squeeze) b.y)
              preds := none }
      | Except.error e, _ => Except.error e
      | Except.ok _, Except.error e => Except.error e := by
  cases hd : RegularClassificationModel.decode ctx m.task ((ctx.forward b.x).squeeze) <;>
    cases hl : m.getLossFn <;>
      simp [RegularClassificationModel.training_step, hd, hl, ok_bind, error_bind]

/-- `validation_step` by cases on the decode result and the stored loss. -/
theorem validation_step_eq (ctx : Ctx) (m : RegularClassificationModel) (b : Batch) :
    RegularClassificationModel.validation_step ctx m b =
      match RegularClassificationModel.decode ctx m.task ((ctx.forward b.x).squeeze),
            m.getLossFn with
      | Except.ok p, Except.ok lf =>
          Except.ok
            { model := { m with valid_accuracy := m.valid_accuracy.update p b.y }
              events := [LogEvent.metric ("val_acc_step") (m.valid_accuracy.update p b.y),
                         LogEvent.scalar ("val_loss") (ctx.lossVal lf ((ctx.forward b.x).squeeze) b.y)]
              loss := none
              preds := none }
      | Except.error e, _ => Except.error e
      | Except.ok _, Except.error e => Except.error e := by
  cases hd : RegularClassificationModel.decode ctx m.task ((ctx.forward b.x).squeeze) <;>
    cases hl : m.getLossFn <;>
      simp [RegularClassificationModel.validation_step, hd, hl, ok_bind, error_bind]

/-- `test_step` by cases on the decode result and the stored loss. -/
theorem test_step_eq (ctx : Ctx) (m : RegularClassificationModel) (b : Batch) :
    RegularClassificationModel.test_step ctx m b =
      match RegularClassificationModel.decode ctx m.task ((ctx.forward b.x).squeeze),
            m.getLossFn with
      | Except.ok p, Except.ok lf =>
          Except.ok
            { model := { m with test_accuracy := m.test_accuracy.update p b.y }
              events := [LogEvent.metric ("test_acc_step") (m.test_accuracy.update p b.y),
                         LogEvent.scalar ("val_loss") (ctx.lossVal lf ((ctx.forward b.x).squeeze) b.y)]
              loss := none
              preds := none }
      | Except.error e, _ => Except.error e
      | Except.ok _, Except.error e => Except.error e := by
  cases hd : RegularClassificationModel.decode ctx m.task ((ctx.forward b.x).squeeze) <;>
    cases hl : m.getLossFn <;>
      simp [RegularClassificationModel.test_step, hd, hl, ok_bind, error_bind]

/-- `predict_step` by cases on the decode result. -/
theorem predict_step_eq (ctx : Ctx) (m : RegularClassificationModel) (b : Batch) :
    RegularClassificationModel.predict_step ctx m b =
      (RegularClassificationModel.decode ctx m.task ((ctx.forward b.x).squeeze)).map
        (fun p => { model := m, events := [], loss := none, preds := some p }) := by
  cases hd : RegularClassificationModel.decode ctx m.task ((ctx.forward b.x).squeeze) <;>
    simp [RegularClassificationModel.predict_step, hd, ok_bind, error_bind, Except.map]

/-- C1 (code_bug evidence): evaluated at the failing input — a
classification wrapper constructed with no optimizer constructor supplied —
`configure_optimizers` raises `AttributeError` because the source evaluates
`torch.nn.Adam`, an attribute `torch.nn` does not have, instead of
instantiating Adam as the claim (and the wrapper's own docstring, "default
is Adam") states; the regression wrapper's default is plain SGD, exactly as
claimed. -/
theorem C1_default_optimizer_code_bug :
    RegularClassificationModel.configure_optimizers bm0 =
      Except.error ("AttributeError: module torch.nn has no attribute Adam") ∧
    LinearRegressionModel.configure_optimizers rm0 =
      ([{ ctor := OptimCtor.sgd, lr := 1/1000 }], [{ step_size := 1 }]) :=
  ⟨rfl, rfl⟩

/-- C2: constructing the classification wrapper with no caller-supplied loss
function and a task tag outside `binary`/`multiclass` fails with an error
during `__init__` — the external metric constructor
`torchmetrics.Accuracy(task = ...)`, called before the loss chain, rejects
every such tag (unknown strings outright, and `multilabel` because the
constructor never passes `num_labels`) — so construction never completes
with the wrapper silently missing a loss function. -/
theorem C2_unrecognized_task_fails_fast (task : String)
    (h1 : task ≠ "binary") (h2 : task ≠ "multiclass")
    (nc : Nat) (optim : Option OptimCtor) (c : Option Nat) (fo : Bool) (lr : ℚ) :
    ∃ msg, RegularClassificationModel.init nc task optim none c fo lr =
      Except.error msg := by
  rcases hm : Accuracy.make task (some nc) none with msg | a
  · refine ⟨msg, ?_⟩
    unfold RegularClassificationModel.init
    rw [hm]
    rfl
  · exfalso
    unfold Accuracy.make at hm
    rw [if_neg h1, if_neg h2] at hm
    by_cases h3 : task = "multilabel"
    · rw [if_pos h3] at hm
      exact Except.noConfusion hm
    · rw [if_neg h3] at hm
      exact Except.noConfusion hm

theorem C2_witness :
    ∃ msg, RegularClassificationModel.init 2 ("multilabel") none none none false (1/1000) =
      Except.error msg :=
  C2_unrecognized_task_fails_fast ("multilabel") (by decide) (by decide) 2 none none false
    (1/1000)

/-- C4: with no caller-supplied loss function, the binary tag selects
exactly the `nn.BCEWithLogitsLoss` reference, the multiclass tag exactly
`nn.CrossEntropyLoss`, and the regression wrapper exactly `nn.MSELoss`
(reference identity of the stored loss object, modelled by the `LossFn`
variant, for every choice of the remaining constructor arguments). -/
theorem C4_default_loss_identity :
    (∀ (nc : Nat) (optim : Option OptimCtor) (c : Option Nat) (fo : Bool) (lr : ℚ),
      (RegularClassificationModel.init nc ("binary") optim none c fo lr).map
        (fun r => r.loss_fn) = Except.ok (some LossFn.bceWithLogits)) ∧
    (∀ (nc : Nat) (optim : Option OptimCtor) (c : Option Nat) (fo : Bool) (lr : ℚ),
      (RegularClassificationModel.init nc ("multiclass") optim none c fo lr).map
        (fun r => r.loss_fn) = Except.ok (some LossFn.crossEntropy)) ∧
    (∀ (fo : Bool) (optim : Option OptimCtor) (lr : ℚ),
      (LinearRegressionModel.init fo optim none lr).loss_fn = LossFn.mse) := by
  refine ⟨?_, ?_, ?_⟩ <;> intros <;> rfl

/-- C6: constructing the orchestrator with a problem-type string outside the
recognized set `[lin-reg, img-class, reg-class]` fails with the descriptive
`select_mode` error before `select_model` runs, so no wrapper instance is
ever created. -/
theorem C6_unrecognized_problem_type (pt : String)
    (h1 : pt ≠ "lin-reg") (h2 : pt ≠ "img-class") (h3 : pt ≠ "reg-class")
    (tdl tsdl : Nat) (fo : Bool) (optim : Option OptimCtor) (pre : Bool)
    (lr : ℚ) (w : World) :
    ChillModel.init tdl tsdl pt fo optim pre lr w =
      Except.error ("ValueError: unrecognized problem type " ++ pt) := by
  unfold ChillModel.init select_mode
  rw [if_neg (by simp [h1, h2, h3])]
  rfl

theorem C6_witness :
    ChillModel.init 0 1 ("unsupported-tag") false none false (1/1000)
        { nextTrainer := 0 } =
      Except.error ("ValueError: unrecognized problem type " ++ "unsupported-tag") :=
  C6_unrecognized_problem_type ("unsupported-tag") (by decide) (by decide) (by decide)
    0 1 false none false (1/1000) { nextTrainer := 0 }

/-- C7: on the pretrained ("custom model") path the `classifier` argument is
required, and the orchestrator's constructor can never supply one (its
signature has no classifier parameter), so constructing with
`pretrained = True` fails with the descriptive error during `__init__` —
at construction time, before any wrapper method can be used. -/
theorem C7_pretrained_without_classifier_fails (pt : String)
    (h : pt = "lin-reg" ∨ pt = "img-class" ∨ pt = "reg-class")
    (tdl tsdl : Nat) (fo : Bool) (optim : Option OptimCtor) (lr : ℚ) (w : World) :
    ChillModel.init tdl tsdl pt fo optim true lr w =
      Except.error ("ValueError: classifier is a required argument when pretrained is True") := by
  unfold ChillModel.init select_mode
  rw [if_pos h]
  rfl

theorem C7_witness :
    ChillModel.init 0 1 ("reg-class") false none true (1/1000) { nextTrainer := 0 } =
      Except.error ("ValueError: classifier is a required argument when pretrained is True") :=
  C7_pretrained_without_classifier_fails ("reg-class") (by simp) 0 1 false none (1/1000)
    { nextTrainer := 0 }

/-- Result of `training_step ctx0 bm0 b0`. -/
def outTrain : StepOut RegularClassificationModel :=
  { model := { bm0 with train_accuracy := acc1 }
    events := [LogEvent.metric ("train_acc_step") acc1]
    loss := some 2
    preds := none }

/-- Result of `test_step ctx0 bm0 b0`. -/
def outTest : StepOut RegularClassificationModel :=
  { model := { bm0 with test_accuracy := acc1 }
    events := [LogEvent.metric ("test_acc_step") acc1, LogEvent.scalar ("val_loss") 2]
    loss := none
    preds := none }

unseal Rat.add Rat.mul Rat.inv Rat.sub in
/-- C3 counterexample: on a concrete binary wrapper and batch, the training
step's complete log is the single accumulator event — the step's loss value
is never emitted to the logging capability — and the test step emits its
loss under the name `val_loss`, which identifies the validation split, not
the test split.  Both refute the claim that every step emits its
accumulator together with its loss under names identifying its own
split. -/
theorem C3_counterexample :
    RegularClassificationModel.training_step ctx0 bm0 b0 = Except.ok outTrain ∧
    outTrain.events = [LogEvent.metric ("train_acc_step") acc1] ∧
    RegularClassificationModel.test_step ctx0 bm0 b0 = Except.ok outTest ∧
    outTest.events = [LogEvent.metric ("test_acc_step") acc1, LogEvent.scalar ("val_loss") 2] :=
  ⟨by decide, rfl, by decide, rfl⟩

/-- C3 amended: every successful train/validate/test step updates exactly
its own split's accumulator, exactly once, and logs it under its own
split's name (`train_acc_step` / `val_acc_step` / `test_acc_step`); the
validation step additionally logs its loss as `val_loss`; the test step
logs its loss under the validation name `val_loss` rather than a
test-identifying name; the training step does not log its loss at all but
returns it in its result dict. -/
theorem C3_split_accumulators_and_logging (ctx : Ctx)
    (m : RegularClassificationModel) (b : Batch) :
    (∀ r, RegularClassificationModel.training_step ctx m b = Except.ok r →
      r.model.train_accuracy.updates = m.train_accuracy.updates + 1 ∧
      r.model.valid_accuracy = m.valid_accuracy ∧
      r.model.test_accuracy = m.test_accuracy ∧
      r.events = [LogEvent.metric ("train_acc_step") r.model.train_accuracy] ∧
      r.loss.isSome = true) ∧
    (∀ r, RegularClassificationModel.validation_step ctx m b = Except.ok r →
      r.model.valid_accuracy.updates = m.valid_accuracy.updates + 1 ∧
      r.model.train_accuracy = m.train_accuracy ∧
      r.model.test_accuracy = m.test_accuracy ∧
      (∃ v, r.events = [LogEvent.metric ("val_acc_step") r.model.valid_accuracy,
                        LogEvent.scalar ("val_loss") v]) ∧
      r.loss = none) ∧
    (∀ r, RegularClassificationModel.test_step ctx m b = Except.ok r →
      r.model.test_accuracy.updates = m.test_accuracy.updates + 1 ∧
      r.model.train_accuracy = m.train_accuracy ∧
      r.model.valid_accuracy = m.valid_accuracy ∧
      (∃ v, r.events = [LogEvent.metric ("test_acc_step") r.model.test_accuracy,
                        LogEvent.scalar ("val_loss") v]) ∧
      r.loss = none) := by
  refine ⟨?_, ?_, ?_⟩
  · intro r h
    rw [training_step_eq] at h
    split at h
    · injection h with h
      subst h
      refine ⟨?_, rfl, rfl, rfl, rfl⟩
      simp [Accuracy.update, Accuracy.updates]
    · exact Except.noConfusion h
    · exact Except.noConfusion h
  · intro r h
    rw [validation_step_eq] at h
    split at h
    · injection h with h
      subst h
      refine ⟨?_, rfl, rfl, ⟨_, rfl⟩, rfl⟩
      simp [Accuracy.update, Accuracy.updates]
    · exact Except.noConfusion h
    · exact Except.noConfusion h
  · intro r h
    rw [test_step_eq] at h
    split at h
    · injection h with h
      subst h
      refine ⟨?_, rfl, rfl, ⟨_, rfl⟩, rfl⟩
      simp [Accuracy.update, Accuracy.updates]
    · exact Except.noConfusion h
    · exact Except.noConfusion h

unseal Rat.add Rat.mul Rat.inv Rat.sub in
theorem C3_witness :
    outTrain.model.train_accuracy.updates = bm0.train_accuracy.updates + 1 ∧
    outTrain.events = [LogEvent.metric ("train_acc_step") outTrain.model.train_accuracy] ∧
    (∃ v, outTest.events = [LogEvent.metric ("test_acc_step") outTest.model.test_accuracy,
                            LogEvent.scalar ("val_loss") v]) := by
  have h := C3_split_accumulators_and_logging ctx0 bm0 b0
  exact ⟨(h.1 outTrain (by decide)).1, (h.1 outTrain (by decide)).2.2.2.1,
         (h.2.2 outTest (by decide)).2.2.2.1⟩

/-- The rounding rule sends any value of the open unit interval to 0 or 1. -/
theorem roundHalfEven_unit (q : ℚ) (h0 : 0 < q) (h1 : q < 1) :
    roundHalfEven q = 0 ∨ roundHalfEven q = 1 := by
  have hf : ⌊q⌋ = 0 := by
    rw [Int.floor_eq_zero_iff]
    exact ⟨h0.le, h1⟩
  have hfr : Int.fract q = q := by
    rw [Int.fract, hf]
    simp
  unfold roundHalfEven
  rw [hfr, hf]
  by_cases hq : q = 1/2
  · rw [if_pos hq]
    left
    norm_num
  · rw [if_neg hq, round_eq]
    rcases lt_or_gt_of_ne hq with h | h
    · left
      rw [Int.floor_eq_zero_iff]
      constructor
      · linarith
      · linarith
    · right
      rw [Int.floor_eq_iff]
      constructor
      · push_cast
        linarith
      · push_cast
        linarith

/-- C5: for a sigmoid whose values lie in the open unit interval (the
defining property of the external `torch.sigmoid`), every element of the
binary decode `round(sigmoid(logit))` is 0 or 1; and for a binary-task
wrapper, `predict_step` returns exactly those decoded labels, leaving the
wrapper untouched, emitting nothing to the logger and computing no loss. -/
theorem C5_binary_decode_and_predict :
    (∀ (sig : ℚ → ℚ), (∀ x, 0 < sig x ∧ sig x < 1) →
      ∀ (t : Tensor), ∀ q ∈ (decodeBinary sig t).toList, q = 0 ∨ q = 1) ∧
    (∀ (ctx : Ctx) (m : RegularClassificationModel) (b : Batch),
      m.task = "binary" →
      RegularClassificationModel.predict_step ctx m b =
        Except.ok { model := m, events := [], loss := none,
                    preds := some (decodeBinary ctx.sigmoid ((ctx.forward b.x).squeeze)) }) := by
  constructor
  · intro sig hs t q hq
    have key : ∀ x : ℚ,
        ((roundHalfEven (sig x) : ℤ) : ℚ) = 0 ∨ ((roundHalfEven (sig x) : ℤ) : ℚ) = 1 := by
      intro x
      rcases roundHalfEven_unit (sig x) (hs x).1 (hs x).2 with h | h
      · left
        rw [h]
        norm_num
      · right
        rw [h]
        norm_num
    cases t with
    | scalar x =>
        simp only [decodeBinary, Tensor.toList, List.mem_singleton] at hq
        subst hq
        exact key x
    | vec xs =>
        simp only [decodeBinary, Tensor.toList, List.mem_map] at hq
        obtain ⟨x, _, rfl⟩ := hq
        exact key x
    | mat xss =>
        simp only [decodeBinary, Tensor.toList, List.mem_flatten, List.mem_map] at hq
        obtain ⟨row, ⟨r0, _, rfl⟩, hq⟩ := hq
        rw [List.mem_map] at hq
        obtain ⟨x, _, rfl⟩ := hq
        exact key x
  · intro ctx m b hb
    unfold RegularClassificationModel.predict_step RegularClassificationModel.decode
    rw [hb]
    rfl

unseal Rat.add Rat.mul Rat.inv Rat.sub in
theorem C5_witness :
    ((0:ℚ) = 0 ∨ (0:ℚ) = 1) ∧
    RegularClassificationModel.predict_step ctx0 bm0 b0 =
      Except.ok { model := bm0, events := [], loss := none,
                  preds := some (decodeBinary ctx0.sigmoid ((ctx0.forward b0.x).squeeze)) } :=
  ⟨C5_binary_decode_and_predict.1 (fun _ => 1/2)
      (fun _ => ⟨by norm_num, by norm_num⟩) (Tensor.vec [5]) 0 (by decide),
   C5_binary_decode_and_predict.2 ctx0 bm0 b0 rfl⟩

/-- C8: `validate()` builds a fresh `pl.Trainer()` and delegates validation
of the stored wrapper to it; for any orchestrator produced by construction
and any later allocation state, the fresh handle differs from the trainer
handle stored at construction, and the orchestrator state (in particular
its stored trainer handle) is unchanged by `validate()`. -/
theorem C8_validate_fresh_trainer (tdl tsdl : Nat) (pt : String) (fo : Bool)
    (optim : Option OptimCtor) (pre : Bool) (lr : ℚ) (w0 w1 : World)
    (m : ChillModel)
    (h : ChillModel.init tdl tsdl pt fo optim pre lr w0 = Except.ok (m, w1))
    (w2 : World) (hw : w1.nextTrainer ≤ w2.nextTrainer) :
    (m.validate w2).1 = m ∧
    (m.validate w2).2.2 = [TrainerCall.validate w2.nextTrainer m.model] ∧
    w2.nextTrainer ≠ m.trainer := by
  have key : m.trainer = w0.nextTrainer ∧ w1.nextTrainer = w0.nextTrainer + 1 := by
    unfold ChillModel.init at h
    rcases hm : select_mode pt with e | p
    · rw [hm, error_bind] at h
      exact Except.noConfusion h
    · rw [hm, ok_bind] at h
      rcases hs : select_model p fo optim lr pre none with e | wmod
      · rw [hs, error_bind] at h
        exact Except.noConfusion h
      · rw [hs, ok_bind] at h
        injection h with h
        injection h with h1 h2
        subst h1
        subst h2
        exact ⟨rfl, rfl⟩
  refine ⟨rfl, rfl, ?_⟩
  rw [key.1]
  have h2 := key.2
  omega

theorem C8_witness :
    ((ChillModel.mk 0 1 ("reg-class") Wrapper.regClass 0).validate
        { nextTrainer := 1 }).1 = ChillModel.mk 0 1 ("reg-class") Wrapper.regClass 0 ∧
    ((ChillModel.mk 0 1 ("reg-class") Wrapper.regClass 0).validate
        { nextTrainer := 1 }).2.2 =
      [TrainerCall.validate 1 (ChillModel.mk 0 1 ("reg-class") Wrapper.regClass 0).model] ∧
    (1 : Nat) ≠ (ChillModel.mk 0 1 ("reg-class") Wrapper.regClass 0).trainer :=
  C8_validate_fresh_trainer 0 1 ("reg-class") false none false (1/1000)
    { nextTrainer := 0 } { nextTrainer := 1 }
    (ChillModel.mk 0 1 ("reg-class") Wrapper.regClass 0) (by rfl)
    { nextTrainer := 1 } (by decide)

/-- C9: the task tag is fixed at construction and no step operation changes
it (each successful step returns a wrapper with the same tag); the decode
rule and loss used by the steps are pure functions of the tag and of the
loss reference selected at construction — two wrappers agreeing on tag and
stored loss produce identical step losses and identical predictions
whatever their other fields — and with no caller-supplied loss the stored
loss reference is itself a function of the tag alone. -/
theorem C9_task_immutable_and_dispatch_pure :
    (∀ (ctx : Ctx) (m : RegularClassificationModel) (b : Batch)
        (r : StepOut RegularClassificationModel),
      (RegularClassificationModel.training_step ctx m b = Except.ok r →
        r.model.task = m.task) ∧
      (RegularClassificationModel.validation_step ctx m b = Except.ok r →
        r.model.task = m.task) ∧
      (RegularClassificationModel.test_step ctx m b = Except.ok r →
        r.model.task = m.task) ∧
      (RegularClassificationModel.predict_step ctx m b = Except.ok r →
        r.model.task = m.task)) ∧
    (∀ (ctx : Ctx) (m1 m2 : RegularClassificationModel) (b : Batch),
      m1.task = m2.task → m1.loss_fn = m2.loss_fn →
      (RegularClassificationModel.training_step ctx m1 b).map (fun r => r.loss) =
        (RegularClassificationModel.training_step ctx m2 b).map (fun r => r.loss) ∧
      (RegularClassificationModel.predict_step ctx m1 b).map (fun r => r.preds) =
        (RegularClassificationModel.predict_step ctx m2 b).map (fun r => r.preds)) ∧
    (∀ (nc1 nc2 : Nat) (task : String) (o1 o2 : Option OptimCtor)
        (c1 c2 : Option Nat) (f1 f2 : Bool) (l1 l2 : ℚ),
      (RegularClassificationModel.init nc1 task o1 none c1 f1 l1).map
        (fun r => r.loss_fn) =
      (RegularClassificationModel.init nc2 task o2 none c2 f2 l2).map
        (fun r => r.loss_fn)) := by
  refine ⟨?_, ?_, ?_⟩
  · intro ctx m b r
    refine ⟨?_, ?_, ?_, ?_⟩ <;> intro h
    · rw [training_step_eq] at h
      split at h
      · injection h with h
        subst h
        rfl
      · exact Except.noConfusion h
      · exact Except.noConfusion h
    · rw [validation_step_eq] at h
      split at h
      · injection h with h
        subst h
        rfl
      · exact Except.noConfusion h
      · exact Except.noConfusion h
    · rw [test_step_eq] at h
      split at h
      · injection h with h
        subst h
        rfl
      · exact Except.noConfusion h
      · exact Except.noConfusion h
    · rw [predict_step_eq] at h
      rcases hd : RegularClassificationModel.decode ctx m.task ((ctx.forward b.x).squeeze)
        with e | p
      · rw [hd] at h
        exact Except.noConfusion h
      · rw [hd] at h
        injection h with h
        subst h
        rfl
  · intro ctx m1 m2 b h1 h2
    have hlf : m1.getLossFn = m2.getLossFn := by
      unfold RegularClassificationModel.getLossFn
      rw [h2]
    constructor
    · rw [training_step_eq, training_step_eq, h1, hlf]
      rcases hd : RegularClassificationModel.decode ctx m2.task ((ctx.forward b.x).squeeze)
        with e | p <;>
        rcases hl : m2.getLossFn with e2 | lf <;>
          simp [Except.map]
    · rw [predict_step_eq, predict_step_eq, h1]
      rcases hd : RegularClassificationModel.decode ctx m2.task ((ctx.forward b.x).squeeze)
        with e | p <;>
        simp [Except.map]
  · intro nc1 nc2 task o1 o2 c1 c2 f1 f2 l1 l2
    have hmk : Accuracy.make task (some nc1) none = Accuracy.make task (some nc2) none := rfl
    unfold RegularClassificationModel.init
    rw [hmk]
    rcases hm : Accuracy.make task (some nc2) none with e | a <;>
      simp [hm, ok_bind, error_bind, Except.map]

unseal Rat.add Rat.mul Rat.inv Rat.sub in
theorem C9_witness :
    outTrain.model.task = bm0.task ∧
    (RegularClassificationModel.training_step ctx0 bm0 b0).map (fun r => r.loss) =
      (RegularClassificationModel.training_step ctx0 { bm0 with lr := 1/2 } b0).map
        (fun r => r.loss) ∧
    (RegularClassificationModel.init 2 ("binary") none none none false (1/1000)).map
        (fun r => r.loss_fn) =
      (RegularClassificationModel.init 3 ("binary") (some OptimCtor.adam) none (some 7)
          true (1/2)).map (fun r => r.loss_fn) :=
  ⟨(C9_task_immutable_and_dispatch_pure.1 ctx0 bm0 b0 outTrain).1 (by decide),
   (C9_task_immutable_and_dispatch_pure.2.1 ctx0 bm0 { bm0 with lr := 1/2 } b0 rfl rfl).1,
   C9_task_immutable_and_dispatch_pure.2.2 2 3 ("binary") none (some OptimCtor.adam)
     none (some 7) false true (1/1000) (1/2)⟩

/-- C10: `train()` delegates to the stored trainer passing both the wrapper
and the train data source; `test()` and `predict()` delegate to the stored
trainer passing only their data source and never the wrapper; across the
four lifecycle calls, only the delegations made by `train()` and
`validate()` carry the stored wrapper reference. -/
theorem C10_trainer_argument_shapes :
    ∀ (m : ChillModel) (dl : Nat) (w : World),
      m.train = [TrainerCall.fit m.trainer m.model m.train_dataloader] ∧
      m.test = [TrainerCall.test m.trainer m.test_dataloader] ∧
      m.predict dl = [TrainerCall.predict m.trainer dl] ∧
      m.train.map TrainerCall.usesModel = [true] ∧
      m.test.map TrainerCall.usesModel = [false] ∧
      (m.predict dl).map TrainerCall.usesModel = [false] ∧
      ((m.validate w).2.2).map TrainerCall.usesModel = [true] := by
  intro m dl w
  exact ⟨rfl, rfl, rfl, rfl, rfl, rfl, rfl⟩

end ChillTorch
